import Mathlib

/-!
Shallow embedding of `vbb_backend/program/models.py`, the data-model layer of
the VBB mentoring-program backend, together with proofs about its only
non-trivial logic: the `Slot.save` overlap-conflict check, the foreign-key
delete semantics, and the per-model permission predicates.

Modelling conventions:
* Django model rows become Lean structures; foreign keys to rows that every
  claim treats as immutable context (`Computer.program`, `Program.program_director`)
  are embedded inline (the director as the referenced user's id).
* `DateTimeField` values become `Nat` minutes since `DEAFULT_INIT_DATE`
  (2000-01-03 00:00 UTC, the first Monday of 2000, per the source constant),
  so `Python datetime` comparison is `Nat` comparison and
  `date().weekday()` (Monday = 0) is `t / 1440 % 7`.
* The slot table becomes a `List Slot`; a raised exception becomes the
  `Except.error` branch and leaves the list unchanged.
-/

namespace VBB

/-- A user, as far as the permission checks read it: primary key and the
`is_superuser` flag (`request.user`). -/
structure User where
  id : Nat
  is_superuser : Bool
  deriving DecidableEq, Repr

/-- `Program` row: `program_director` is a nullable FK to `users.User`
(`on_delete=SET_NULL, null=True`), embedded as the director's user id. -/
structure Program where
  id : Nat
  program_director : Option Nat
  deriving DecidableEq, Repr

/-- `School` row: `program` is a nullable FK (`on_delete=SET_NULL, null=True`). -/
structure School where
  id : Nat
  program : Option Program
  deriving DecidableEq, Repr

/-- `Computer` row: `program` is a non-nullable FK (`on_delete=PROTECT`). -/
structure Computer where
  id : Nat
  program : Program
  deriving DecidableEq, Repr

/-- `Slot` row. `computer` is a nullable FK (`on_delete=PROTECT, null=True`);
`schedule_start` / `schedule_end` are minutes since `DEAFULT_INIT_DATE`. -/
structure Slot where
  id : Nat
  computer : Option Computer
  language : String
  schedule_start : Nat
  schedule_end : Nat
  max_students : Nat
  assigned_students : Nat
  is_mentor_assigned : Bool
  is_student_assigned : Bool
  deriving DecidableEq, Repr

/-- The error raised by `Slot.save`: `ValidationError` with detail
`schedule: Conflict Found`. -/
inductive SaveError where
  | conflictFound
  deriving DecidableEq, Repr

/-- The filter condition of `Slot.save`, applied to one stored row:
`computer=self.computer, schedule_end__gt=self.schedule_start,
schedule_start__lt=self.schedule_end`. -/
def slotConflict (existing s : Slot) : Bool :=
  decide (existing.computer = s.computer) &&
  decide (s.schedule_start < existing.schedule_end) &&
  decide (existing.schedule_start < s.schedule_end)

/-- `Slot.save`: if any stored slot matches the conflict filter, raise the
validation error; otherwise insert the row (`super().save()`). -/
def Slot.save (store : List Slot) (s : Slot) : Except SaveError (List Slot) :=
  if store.any (fun e => slotConflict e s) then
    Except.error SaveError.conflictFound
  else
    Except.ok (s :: store)

/-- The slot table after a `save` call: a raised `ValidationError` aborts the
save, leaving the table unchanged. -/
def applySave (store : List Slot) (s : Slot) : List Slot :=
  match Slot.save store s with
  | Except.ok store' => store'
  | Except.error _ => store

/-- A sequential slot-table operation: create via `Slot.save`, or delete a
row by primary key (`Model.delete`). -/
inductive SlotOp where
  | create (s : Slot)
  | delete (i : Nat)

/-- Apply one operation to the slot table. -/
def applyOp (store : List Slot) : SlotOp → List Slot
  | SlotOp.create s => applySave store s
  | SlotOp.delete i => store.filter (fun s => decide (s.id ≠ i))

/-- Run a sequence of operations starting from the empty table. -/
def execOps (ops : List SlotOp) : List Slot :=
  ops.foldl applyOp []

/-- Two slots overlap in the sense of the Invariant-1 rule:
same `computer`, `b.schedule_start < a.schedule_end` and
`a.schedule_start < b.schedule_end`. -/
def overlaps (a b : Slot) : Prop :=
  a.computer = b.computer ∧
  b.schedule_start < a.schedule_end ∧
  a.schedule_start < b.schedule_end

/-- No two distinct stored slots overlap. -/
def noOverlap (store : List Slot) : Prop :=
  store.Pairwise (fun a b => ¬ overlaps a b)

/-- The `exists()` call inside `Slot.save`: does any stored row conflict
with the candidate? -/
def conflictCheck (store : List Slot) (s : Slot) : Bool :=
  store.any (fun e => slotConflict e s)

/-- `Slot.start_day_of_the_week`: `schedule_start.date().weekday()`
(Monday = 0; the epoch is a Monday). -/
def Slot.start_day_of_the_week (s : Slot) : Nat :=
  s.schedule_start / 1440 % 7

/-- `Slot.end_day_of_the_week`. -/
def Slot.end_day_of_the_week (s : Slot) : Nat :=
  s.schedule_end / 1440 % 7

/-- `Slot.start_hour`: `schedule_start.hour`. -/
def Slot.start_hour (s : Slot) : Nat :=
  s.schedule_start % 1440 / 60

/-- `Slot.end_hour`. -/
def Slot.end_hour (s : Slot) : Nat :=
  s.schedule_end % 1440 / 60

/-- `Slot.start_minute`: `schedule_start.minute`. -/
def Slot.start_minute (s : Slot) : Nat :=
  s.schedule_start % 60

/-- `Slot.end_minute`. -/
def Slot.end_minute (s : Slot) : Nat :=
  s.schedule_end % 60

/-- Two slots agree in the weekday and time-of-day components of both
endpoints (the components the source's accessor methods expose). -/
def sameWeeklyPattern (a b : Slot) : Prop :=
  a.start_day_of_the_week = b.start_day_of_the_week ∧
  a.start_hour = b.start_hour ∧ a.start_minute = b.start_minute ∧
  a.end_day_of_the_week = b.end_day_of_the_week ∧
  a.end_hour = b.end_hour ∧ a.end_minute = b.end_minute

instance (a b : Slot) : Decidable (sameWeeklyPattern a b) := by
  unfold sameWeeklyPattern
  infer_instance

instance (a b : Slot) : Decidable (overlaps a b) := by
  unfold overlaps
  infer_instance

/-- The Python error hit when a permission check dereferences a null FK:
`AttributeError` on `None`. -/
inductive PyError where
  | noneAttribute
  deriving DecidableEq, Repr

/-- `Slot.has_object_write_permission`:
`request.user.is_superuser or request.user == self.computer.program.program_director`.
Python `or` short-circuits, so a superuser never touches `self.computer`;
for anyone else a null `computer` raises `AttributeError`. -/
def Slot.has_object_write_permission (s : Slot) (u : User) : Except PyError Bool :=
  if u.is_superuser then Except.ok true
  else
    match s.computer with
    | none => Except.error PyError.noneAttribute
    | some c => Except.ok (decide (some u.id = c.program.program_director))

/-- `Slot.has_object_update_permission` delegates to the write check. -/
def Slot.has_object_update_permission (s : Slot) (u : User) : Except PyError Bool :=
  s.has_object_write_permission u

/-- `Slot.has_object_read_permission` delegates to the write check. -/
def Slot.has_object_read_permission (s : Slot) (u : User) : Except PyError Bool :=
  s.has_object_write_permission u

/-- `Slot.has_create_permission`, with the computer already resolved from
`computer_external_id` (the `Computer.objects.get` call):
`request.user.is_superuser or request.user == computer.program.program_director`. -/
def Slot.has_create_permission (c : Computer) (u : User) : Bool :=
  u.is_superuser || decide (some u.id = c.program.program_director)

/-- `Program.has_write_permission`: `return True`. -/
def Program.has_write_permission (_u : User) : Bool :=
  true

/-- `School.has_write_permission`: `return True`. -/
def School.has_write_permission (_u : User) : Bool :=
  true

/-- `Computer.has_write_permission`: `return True`. -/
def Computer.has_write_permission (_u : User) : Bool :=
  true

/-- `Slot.has_write_permission`: `return True`. -/
def Slot.has_write_permission (_u : User) : Bool :=
  true

/-- The error raised by deleting a row that rows with an
`on_delete=PROTECT` FK still reference: Django's `ProtectedError`. -/
inductive DeleteError where
  | fkProtect
  deriving DecidableEq, Repr

/-- Deleting a `Computer` under the declared FK semantics: `Slot.computer`
is `on_delete=models.PROTECT`, so the delete is refused while any slot
references the computer; on success the slot rows are untouched. -/
def Computer.delete (slots : List Slot) (computers : List Computer)
    (c : Computer) : Except DeleteError (List Computer × List Slot) :=
  if slots.any (fun s => decide (s.computer = some c)) then
    Except.error DeleteError.fkProtect
  else
    Except.ok (computers.filter (fun k => decide (k ≠ c)), slots)

/-- The capacity error of the spec's CapacityTracker. -/
inductive CapacityError where
  | capacityExceeded
  deriving DecidableEq, Repr

/-- Modelled from the spec: `assignStudent` of the CapacityTracker (spec
section 4.3) is absent from the repository source, which only declares the
`max_students` / `assigned_students` / `is_student_assigned` fields.
Fails with `CapacityExceededError` when `assigned_students == max_students`;
on success increments `assigned_students` and sets `is_student_assigned`. -/
def assignStudent (s : Slot) : Except CapacityError Slot :=
  if s.assigned_students = s.max_students then
    Except.error CapacityError.capacityExceeded
  else
    Except.ok { s with
      assigned_students := s.assigned_students + 1
      is_student_assigned := true }

/-- Iterate `assignStudent`, stopping at the first failure. -/
def assignIter : Nat → Slot → Except CapacityError Slot
  | 0, s => Except.ok s
  | n + 1, s =>
    match assignStudent s with
    | Except.ok s' => assignIter n s'
    | Except.error e => Except.error e

/-- A concrete program whose director is user 1. -/
def program0 : Program :=
  { id := 0, program_director := some 1 }

/-- A concrete computer in `program0`. -/
def computer0 : Computer :=
  { id := 0, program := program0 }

/-- Build a fresh slot row with the model's field defaults
(`max_students=1`, `assigned_students=0`, both flags false). -/
def mkSlot (i : Nat) (c : Option Computer) (startMin stopMin : Nat) : Slot :=
  { id := i
    computer := c
    language := "ENGLISH"
    schedule_start := startMin
    schedule_end := stopMin
    max_students := 1
    assigned_students := 0
    is_mentor_assigned := false
    is_student_assigned := false }

/-- Monday 10:00 to Monday 12:00 (minutes 600 to 720 of the reference week). -/
def mondaySlot1012 : Slot := mkSlot 1 (some computer0) 600 720

/-- Monday 11:00 to Monday 13:00. -/
def mondaySlot1113 : Slot := mkSlot 2 (some computer0) 660 780

/-- Monday 12:00 to Monday 14:00. -/
def mondaySlot1214 : Slot := mkSlot 3 (some computer0) 720 840

/-- Monday 10:00 to Monday 10:00: `schedule_end` not after `schedule_start`. -/
def degenerateSlot : Slot := mkSlot 20 (some computer0) 600 600

/-- Monday 00:00 to Tuesday 01:00: a 25-hour span. -/
def overlongSlot : Slot := mkSlot 21 (some computer0) 0 1500

/-- C1: `Slot.save` fails with the conflict error iff some stored slot on the
same computer satisfies `existing.schedule_end > new.schedule_start` and
`existing.schedule_start < new.schedule_end`; on that failure the table is
unchanged, otherwise the row is inserted. In particular [Mon 11:00, Mon 13:00)
after [Mon 10:00, Mon 12:00) fails while [Mon 12:00, Mon 14:00) succeeds. -/
theorem slot_save_conflict_iff :
    (∀ (store : List Slot) (s : Slot),
      (Slot.save store s = Except.error SaveError.conflictFound ↔
        ∃ e ∈ store, e.computer = s.computer ∧
          s.schedule_start < e.schedule_end ∧
          e.schedule_start < s.schedule_end) ∧
      (Slot.save store s = Except.error SaveError.conflictFound →
        applySave store s = store) ∧
      ((¬ ∃ e ∈ store, e.computer = s.computer ∧
          s.schedule_start < e.schedule_end ∧
          e.schedule_start < s.schedule_end) →
        Slot.save store s = Except.ok (s :: store))) ∧
    Slot.save [] mondaySlot1012 = Except.ok [mondaySlot1012] ∧
    Slot.save [mondaySlot1012] mondaySlot1113 =
      Except.error SaveError.conflictFound ∧
    Slot.save [mondaySlot1012] mondaySlot1214 =
      Except.ok [mondaySlot1214, mondaySlot1012] := by
  refine ⟨fun store s => ?_, rfl, rfl, rfl⟩
  have hiff : store.any (fun e => slotConflict e s) = true ↔
      ∃ e ∈ store, e.computer = s.computer ∧
        s.schedule_start < e.schedule_end ∧
        e.schedule_start < s.schedule_end := by
    simp [slotConflict, List.any_eq_true, and_assoc]
  by_cases h : store.any (fun e => slotConflict e s) = true
  · have hsave : Slot.save store s = Except.error SaveError.conflictFound := by
      simp only [Slot.save, if_pos h]
    refine ⟨iff_of_true hsave (hiff.mp h), ?_, ?_⟩
    · intro _
      simp only [applySave, hsave]
    · intro hn
      exact absurd (hiff.mp h) hn
  · have hsave : Slot.save store s = Except.ok (s :: store) := by
      simp only [Slot.save, if_neg h]
    refine ⟨iff_of_false (by simp [hsave]) (fun hex => h (hiff.mpr hex)), ?_, ?_⟩
    · intro hbad
      rw [hsave] at hbad
      exact absurd hbad (by simp)
    · intro _
      exact hsave

/-- Witness for C1 at a concrete input. -/
theorem slot_save_conflict_iff_witness :
    Slot.save [mondaySlot1012] mondaySlot1214 =
      Except.ok (mondaySlot1214 :: [mondaySlot1012]) :=
  (slot_save_conflict_iff.1 [mondaySlot1012] mondaySlot1214).2.2 (by decide)

/-- C3 (code bug): `Slot.save` performs no range validation — a slot whose
`schedule_end` equals its `schedule_start`, and a slot spanning 25 hours,
are both stored without error. -/
theorem save_accepts_invalid_range :
    degenerateSlot.schedule_end ≤ degenerateSlot.schedule_start ∧
    Slot.save [] degenerateSlot = Except.ok [degenerateSlot] ∧
    1440 ≤ overlongSlot.schedule_end - overlongSlot.schedule_start ∧
    Slot.save [] overlongSlot = Except.ok [overlongSlot] :=
  ⟨by decide, rfl, by decide, rfl⟩

/-- C5 counterexample: re-saving a stored slot with `schedule_end` after
`schedule_start` IS prevented at the storage layer: the overlap filter does
not exclude the row being saved, so the slot conflicts with its own stored
row and `save` raises the conflict error. -/
theorem resave_blocked_counterexample :
    mondaySlot1012.schedule_start < mondaySlot1012.schedule_end ∧
    Slot.save [mondaySlot1012] mondaySlot1012 =
      Except.error SaveError.conflictFound :=
  ⟨by decide, rfl⟩

/-- C5 amended: calling `save` again on any stored slot with `schedule_end`
after `schedule_start` always fails with the conflict error, because the
overlap filter does not exclude the slot itself; immutability is therefore
enforced at the storage layer as well, not achieved solely by omitting an
update operation. -/
theorem resave_blocked (store : List Slot) (s : Slot)
    (hmem : s ∈ store) (hlt : s.schedule_start < s.schedule_end) :
    Slot.save store s = Except.error SaveError.conflictFound := by
  have h : store.any (fun e => slotConflict e s) = true := by
    refine List.any_eq_true.mpr ⟨s, hmem, ?_⟩
    simp only [slotConflict, Bool.and_eq_true, decide_eq_true_eq]
    exact ⟨⟨trivial, hlt⟩, hlt⟩
  simp only [Slot.save, if_pos h]

/-- Witness for C5's amended theorem at a concrete input. -/
theorem resave_blocked_witness :
    Slot.save [mondaySlot1113] mondaySlot1113 =
      Except.error SaveError.conflictFound :=
  resave_blocked [mondaySlot1113] mondaySlot1113 (by simp) (by decide)

/-- A successful `save` inserts a row that conflicts with no stored row, so
the pairwise no-overlap invariant survives the insertion. -/
theorem save_ok_preserves (store : List Slot) (s : Slot) (store' : List Slot)
    (hinv : noOverlap store) (hok : Slot.save store s = Except.ok store') :
    noOverlap store' := by
  by_cases h : store.any (fun e => slotConflict e s) = true
  · rw [Slot.save, if_pos h] at hok
    exact absurd hok (by simp)
  · rw [Slot.save, if_neg h] at hok
    obtain rfl : s :: store = store' := by
      simpa using hok
    have hall : ∀ e ∈ store, ¬ slotConflict e s = true :=
      List.any_eq_false.mp (Bool.eq_false_iff.mpr fun hc => h hc)
    refine List.Pairwise.cons (fun e he hov => ?_) hinv
    obtain ⟨h1, h2, h3⟩ := hov
    refine hall e he ?_
    simp only [slotConflict, Bool.and_eq_true, decide_eq_true_eq]
    exact ⟨⟨h1.symm, h3⟩, h2⟩

/-- Every single table operation preserves the no-overlap invariant. -/
theorem applyOp_preserves (store : List Slot) (op : SlotOp)
    (hinv : noOverlap store) : noOverlap (applyOp store op) := by
  cases op with
  | create s =>
    simp only [applyOp, applySave]
    cases hsv : Slot.save store s with
    | ok st => exact save_ok_preserves store s st hinv hsv
    | error e => exact hinv
  | delete i =>
    exact List.Pairwise.sublist (List.filter_sublist store) hinv

/-- Folding operations preserves the invariant from any starting table. -/
theorem foldOps_preserves (ops : List SlotOp) :
    ∀ store : List Slot, noOverlap store →
      noOverlap (ops.foldl applyOp store) := by
  induction ops with
  | nil => exact fun store h => h
  | cons op rest ih => exact fun store h => ih _ (applyOp_preserves store op h)

/-- C2: after every sequence of create/delete operations from the empty
table, no two stored slots on the same computer have overlapping
[schedule_start, schedule_end) intervals, and every successful `save`
preserves this invariant. -/
theorem exec_preserves_noOverlap :
    (∀ ops : List SlotOp, noOverlap (execOps ops)) ∧
    (∀ (store : List Slot) (s : Slot) (store' : List Slot),
      noOverlap store → Slot.save store s = Except.ok store' →
      noOverlap store') :=
  ⟨fun ops => foldOps_preserves ops [] List.Pairwise.nil,
   fun store s store' h hok => save_ok_preserves store s store' h hok⟩

/-- Witness for C2 at concrete inputs. -/
theorem exec_preserves_noOverlap_witness :
    noOverlap (execOps [SlotOp.create mondaySlot1012,
      SlotOp.create mondaySlot1113]) ∧
    noOverlap [mondaySlot1214] :=
  ⟨exec_preserves_noOverlap.1 _,
   exec_preserves_noOverlap.2 [] mondaySlot1214 [mondaySlot1214]
     (by simp [noOverlap]) (by rfl)⟩

/-- Monday 11:00 to Monday 13:00, 52 weeks after the reference week: the
same weekday and time-of-day as `mondaySlot1113`, but in the year 2001
(2001-01-01 is the Monday 364 days after 2000-01-03). -/
def mondaySlot1113y2001 : Slot := mkSlot 4 (some computer0) 524820 524940

/-- C4 counterexample: two candidates on the same computer agreeing in
weekday and time-of-day but a year apart get different answers from the
conflict filter, because `Slot.save` compares full timestamps. -/
theorem conflict_uses_month_year_counterexample :
    sameWeeklyPattern mondaySlot1113 mondaySlot1113y2001 ∧
    mondaySlot1113.computer = mondaySlot1113y2001.computer ∧
    conflictCheck [mondaySlot1012] mondaySlot1113 = true ∧
    conflictCheck [mondaySlot1012] mondaySlot1113y2001 = false :=
  ⟨by decide, rfl, rfl, rfl⟩

/-- C4 amended: the conflict filter compares the full stored timestamps, so
the weekday+time-of-day reading holds only under the source's reference-week
convention: when every endpoint of both candidates lies in the reference week
(minutes 0 to 10080 after `DEAFULT_INIT_DATE`), candidates on the same
computer that agree in weekday and time-of-day get the same answer. -/
theorem conflict_weekday_only_within_reference_week
    (store : List Slot) (a b : Slot)
    (hc : a.computer = b.computer)
    (ha1 : a.schedule_start < 10080) (ha2 : a.schedule_end < 10080)
    (hb1 : b.schedule_start < 10080) (hb2 : b.schedule_end < 10080)
    (hw : sameWeeklyPattern a b) :
    conflictCheck store a = conflictCheck store b := by
  obtain ⟨hd1, hh1, hm1, hd2, hh2, hm2⟩ := hw
  have hs : a.schedule_start = b.schedule_start := by
    simp only [Slot.start_day_of_the_week, Slot.start_hour, Slot.start_minute]
      at hd1 hh1 hm1
    omega
  have he : a.schedule_end = b.schedule_end := by
    simp only [Slot.end_day_of_the_week, Slot.end_hour, Slot.end_minute]
      at hd2 hh2 hm2
    omega
  unfold conflictCheck slotConflict
  simp only [hs, he, hc]

/-- Witness for C4's amended theorem at concrete inputs. -/
theorem conflict_weekday_only_within_reference_week_witness :
    conflictCheck [mondaySlot1012] mondaySlot1113 =
      conflictCheck [mondaySlot1012] (mkSlot 5 (some computer0) 660 780) :=
  conflict_weekday_only_within_reference_week [mondaySlot1012]
    mondaySlot1113 (mkSlot 5 (some computer0) 660 780)
    rfl (by decide) (by decide) (by decide) (by decide) (by decide)

/-- C6 counterexample: deleting a computer that a slot still references is
refused with the protect error (the FK is `on_delete=PROTECT`), not granted
with the slot reference nulled. -/
theorem computer_delete_protect_counterexample :
    mondaySlot1012.computer = some computer0 ∧
    Computer.delete [mondaySlot1012] [computer0] computer0 =
      Except.error DeleteError.fkProtect :=
  ⟨rfl, rfl⟩

/-- C6 amended: deleting a computer fails with the protect error exactly
when some slot references it; when no slot references it the delete succeeds
and leaves every slot row unchanged (references are never set to null). -/
theorem computer_delete_spec (slots : List Slot) (computers : List Computer)
    (c : Computer) :
    (Computer.delete slots computers c = Except.error DeleteError.fkProtect ↔
      ∃ s ∈ slots, s.computer = some c) ∧
    ((¬ ∃ s ∈ slots, s.computer = some c) →
      Computer.delete slots computers c =
        Except.ok (computers.filter (fun k => decide (k ≠ c)), slots)) := by
  have hiff : slots.any (fun s => decide (s.computer = some c)) = true ↔
      ∃ s ∈ slots, s.computer = some c := by
    simp [List.any_eq_true]
  by_cases h : slots.any (fun s => decide (s.computer = some c)) = true
  · have hdel : Computer.delete slots computers c =
        Except.error DeleteError.fkProtect := by
      simp only [Computer.delete, if_pos h]
    exact ⟨iff_of_true hdel (hiff.mp h), fun hn => absurd (hiff.mp h) hn⟩
  · have hdel : Computer.delete slots computers c =
        Except.ok (computers.filter (fun k => decide (k ≠ c)), slots) := by
      simp only [Computer.delete, if_neg h]
    exact ⟨iff_of_false (by simp [hdel]) (fun hex => h (hiff.mpr hex)),
      fun _ => hdel⟩

/-- Witness for C6's amended theorem at a concrete input. -/
theorem computer_delete_spec_witness :
    Computer.delete [] [computer0] computer0 =
      Except.ok ([computer0].filter (fun k => decide (k ≠ computer0)), []) :=
  (computer_delete_spec [] [computer0] computer0).2 (by simp)

/-- The director of `program0`, as a requesting user. -/
def directorUser : User := { id := 1, is_superuser := false }

/-- A superuser. -/
def superUser : User := { id := 9, is_superuser := true }

/-- A user who is neither superuser nor any program's director. -/
def plainUser : User := { id := 2, is_superuser := false }

/-- C7: for a slot whose computer is present, object-level write permission
(and the update and read checks, which delegate to it) is granted iff the
user is a superuser or is the director of the computer's owning program, and
create permission under a computer follows the same rule. -/
theorem slot_object_permission_spec (s : Slot) (c : Computer) (u : User)
    (h : s.computer = some c) :
    (s.has_object_write_permission u = Except.ok true ↔
      (u.is_superuser = true ∨ some u.id = c.program.program_director)) ∧
    (∃ b : Bool, s.has_object_write_permission u = Except.ok b) ∧
    s.has_object_update_permission u = s.has_object_write_permission u ∧
    s.has_object_read_permission u = s.has_object_write_permission u ∧
    (Slot.has_create_permission c u = true ↔
      (u.is_superuser = true ∨ some u.id = c.program.program_director)) := by
  refine ⟨?_, ?_, rfl, rfl, ?_⟩
  · cases hsu : u.is_superuser with
    | true => simp [Slot.has_object_write_permission, hsu]
    | false => simp [Slot.has_object_write_permission, hsu, h]
  · cases hsu : u.is_superuser with
    | true => exact ⟨true, by simp [Slot.has_object_write_permission, hsu]⟩
    | false =>
      exact ⟨decide (some u.id = c.program.program_director),
        by simp [Slot.has_object_write_permission, hsu, h]⟩
  · simp [Slot.has_create_permission]

/-- Witness for C7 at a concrete input: the director of `program0` on a slot
of `computer0`. -/
theorem slot_object_permission_spec_witness :
    (mondaySlot1012.has_object_write_permission directorUser = Except.ok true ↔
      (directorUser.is_superuser = true ∨
        some directorUser.id = computer0.program.program_director)) ∧
    (∃ b : Bool,
      mondaySlot1012.has_object_write_permission directorUser = Except.ok b) ∧
    mondaySlot1012.has_object_update_permission directorUser =
      mondaySlot1012.has_object_write_permission directorUser ∧
    mondaySlot1012.has_object_read_permission directorUser =
      mondaySlot1012.has_object_write_permission directorUser ∧
    (Slot.has_create_permission computer0 directorUser = true ↔
      (directorUser.is_superuser = true ∨
        some directorUser.id = computer0.program.program_director)) :=
  slot_object_permission_spec mondaySlot1012 computer0 directorUser rfl

/-- Helper for C8: while capacity remains, `assignIter` succeeds, adds
exactly `n` students, keeps the capacity, and raises the student flag as
soon as one assignment happened. -/
theorem assignIter_ok_spec (n : Nat) :
    ∀ s : Slot, s.assigned_students + n ≤ s.max_students →
      ∃ s', assignIter n s = Except.ok s' ∧
        s'.assigned_students = s.assigned_students + n ∧
        s'.max_students = s.max_students ∧
        (s.is_student_assigned = true ∨ 0 < n →
          s'.is_student_assigned = true) := by
  induction n with
  | zero =>
    intro s _
    refine ⟨s, rfl, by omega, rfl, ?_⟩
    rintro (hf | hn)
    · exact hf
    · exact absurd hn (by omega)
  | succ n ih =>
    intro s h
    have hne : s.assigned_students ≠ s.max_students := by omega
    have hstep : assignStudent s = Except.ok { s with
        assigned_students := s.assigned_students + 1
        is_student_assigned := true } := by
      simp only [assignStudent, if_neg hne]
    obtain ⟨s', h1, h2, h3, h4⟩ := ih
      { s with
        assigned_students := s.assigned_students + 1
        is_student_assigned := true }
      (show s.assigned_students + 1 + n ≤ s.max_students by omega)
    have h2' : s'.assigned_students = s.assigned_students + 1 + n := h2
    have h3' : s'.max_students = s.max_students := h3
    have h4' : s'.is_student_assigned = true := h4 (Or.inl rfl)
    refine ⟨s', ?_, by omega, h3', fun _ => h4'⟩
    simp only [assignIter, hstep]
    exact h1

/-- Helper for C8: one assignment past capacity fails. -/
theorem assignIter_fail_spec (n : Nat) :
    ∀ s : Slot, s.assigned_students + n = s.max_students →
      assignIter (n + 1) s = Except.error CapacityError.capacityExceeded := by
  induction n with
  | zero =>
    intro s h
    have hfull : s.assigned_students = s.max_students := by omega
    simp only [assignIter, assignStudent, if_pos hfull]
  | succ n ih =>
    intro s h
    have hne : s.assigned_students ≠ s.max_students := by omega
    have hstep : assignStudent s = Except.ok { s with
        assigned_students := s.assigned_students + 1
        is_student_assigned := true } := by
      simp only [assignStudent, if_neg hne]
    simp only [assignIter, hstep]
    exact ih _ (show s.assigned_students + 1 + n = s.max_students by omega)

/-- C8 (spec-modelled): `assignStudent` fails with the capacity error exactly
at `assigned_students = max_students` (leaving the slot unchanged — the error
branch returns no updated row); on success it increments the count and sets
the student flag; from a fresh slot every one of the first `max_students`
calls succeeds, keeping `assigned_students ≤ max_students`, and the next
call fails. -/
theorem assignStudent_spec :
    (∀ s : Slot, s.assigned_students = s.max_students →
      assignStudent s = Except.error CapacityError.capacityExceeded) ∧
    (∀ s : Slot, s.assigned_students ≠ s.max_students →
      assignStudent s = Except.ok { s with
        assigned_students := s.assigned_students + 1
        is_student_assigned := true }) ∧
    (∀ s : Slot, s.assigned_students = 0 → ∀ n, n ≤ s.max_students →
      ∃ s', assignIter n s = Except.ok s' ∧
        s'.assigned_students = n ∧
        s'.max_students = s.max_students ∧
        (0 < n → s'.is_student_assigned = true)) ∧
    (∀ s : Slot, s.assigned_students = 0 →
      assignIter (s.max_students + 1) s =
        Except.error CapacityError.capacityExceeded) := by
  refine ⟨?_, ?_, ?_, ?_⟩
  · intro s h
    simp only [assignStudent, if_pos h]
  · intro s h
    simp only [assignStudent, if_neg h]
  · intro s h0 n hn
    obtain ⟨s', h1, h2, h3, h4⟩ := assignIter_ok_spec n s (by omega)
    exact ⟨s', h1, by omega, h3, fun hpos => h4 (Or.inr hpos)⟩
  · intro s h0
    exact assignIter_fail_spec s.max_students s (by omega)

/-- A slot at capacity: one assigned student of a maximum of one. -/
def fullSlot1 : Slot := { mondaySlot1012 with assigned_students := 1 }

/-- Witness for C8 at concrete inputs. -/
theorem assignStudent_spec_witness :
    assignStudent fullSlot1 = Except.error CapacityError.capacityExceeded ∧
    assignIter (mondaySlot1012.max_students + 1) mondaySlot1012 =
      Except.error CapacityError.capacityExceeded ∧
    (∃ s', assignIter 1 mondaySlot1012 = Except.ok s' ∧
      s'.assigned_students = 1 ∧
      s'.max_students = mondaySlot1012.max_students ∧
      (0 < 1 → s'.is_student_assigned = true)) :=
  ⟨assignStudent_spec.1 fullSlot1 (by decide),
   assignStudent_spec.2.2.2 mondaySlot1012 (by decide),
   assignStudent_spec.2.2.1 mondaySlot1012 (by decide) 1 (by decide)⟩

/-- An orphaned slot: its computer reference is null. -/
def orphanSlot : Slot := mkSlot 30 none 600 720

/-- C9: on a slot whose computer reference is null, the object write check
returns true for a superuser, but for any other user it dereferences the
missing computer's program and raises instead of returning a boolean. -/
theorem orphan_slot_permission (s : Slot) (u : User) (h : s.computer = none) :
    (u.is_superuser = true → s.has_object_write_permission u = Except.ok true) ∧
    (u.is_superuser = false →
      s.has_object_write_permission u = Except.error PyError.noneAttribute) := by
  constructor
  · intro hsu
    simp [Slot.has_object_write_permission, hsu]
  · intro hsu
    simp [Slot.has_object_write_permission, hsu, h]

/-- Witness for C9 at concrete inputs. -/
theorem orphan_slot_permission_witness :
    orphanSlot.has_object_write_permission superUser = Except.ok true ∧
    orphanSlot.has_object_write_permission plainUser =
      Except.error PyError.noneAttribute :=
  ⟨(orphan_slot_permission orphanSlot superUser rfl).1 rfl,
   (orphan_slot_permission orphanSlot plainUser rfl).2 rfl⟩

/-- C10: the collection-level write checks of `Program`, `School`,
`Computer` and `Slot` return true for every request; restriction comes only
from the create and object-level checks. -/
theorem collection_write_permission_unrestricted (u : User) :
    Program.has_write_permission u = true ∧
    School.has_write_permission u = true ∧
    Computer.has_write_permission u = true ∧
    Slot.has_write_permission u = true :=
  ⟨rfl, rfl, rfl, rfl⟩

end VBB
